import Mathlib

/-!
Verification of the CRD deletion-prevention admission webhook
(`pkg/controller/common/webhook/customresourcedeletion.go`).

The Go file implements an admission handler that denies deletion of a
CustomResourceDefinition whenever its group belongs to the fixed set of
Elastic API groups and at least one instance of the type still lives in a
managed namespace.  The embedding below mirrors the three functions of the
file — `Handle`, `isElasticCRD` and `isInUse` — with the external
collaborators (the decoder built from the manager's scheme and the
Kubernetes client's `List`) represented as function-valued fields of the
webhook record.  Side effects that the claims talk about (which namespaces
were queried, which errors were logged) are made observable by threading a
trace through the result.
-/

namespace CrdDeletion

/-- A `schema.GroupVersionKind` triple, as returned by
`crd.GroupVersionKind()` on the decoded object (its apiVersion/kind
metadata). -/
structure GroupVersionKind where
  group : String
  version : String
  kind : String
deriving DecidableEq, Repr

/-- The part of `extensionsv1.CustomResourceDefinition` the webhook can
see: its own GroupVersionKind (from apiVersion/kind), plus the group and
versions declared inside its spec.  The Go code never reads the spec
fields; they are carried here so that theorems can state exactly that. -/
structure CustomResourceDefinition where
  gvk : GroupVersionKind
  specGroup : String
  specVersions : List String
deriving DecidableEq, Repr

/-- An admission verdict: `admission.Allowed`, `admission.Denied` or
`admission.Errored`. -/
inductive Verdict where
  | allowed (msg : String)
  | denied (reason : String)
  | errored (code : Nat) (cause : String)
deriving DecidableEq, Repr

/-- Raw serialized object bytes (`runtime.RawExtension`). -/
abbrev RawObject := String

/-- The fields of `admission.Request` (an `AdmissionRequest`).  Only
`object` is ever read by `Handle`; the other fields are carried so that
theorems can state that. -/
structure Request where
  uid : String
  requestName : String
  requestNamespace : String
  operation : String
  userInfo : String
  object : RawObject
  oldObject : RawObject
  dryRun : Bool
  options : RawObject
deriving DecidableEq, Repr

/-- The client's `List(ctx, ul, client.InNamespace(ns))` capability:
given a namespace and the GroupVersionKind set on the
`UnstructuredList`, it either fails with an error message or returns the
list of items found.  Item contents are irrelevant to the webhook (only
`len(ul.Items)` is inspected), so items are modelled as `Unit`. -/
abbrev Store := String → GroupVersionKind → Except String (List Unit)

/-- The state of `crdDeletionWebhook`: the Kubernetes client, the
admission decoder (`decoder.DecodeRaw` on the raw object bytes) and the
managed namespaces in iteration order (`managedNamespace.AsSlice()`). -/
structure crdDeletionWebhook where
  client : Store
  decoder : RawObject → Except String CustomResourceDefinition
  managedNamespace : List String

/-- Observable outcome of `isInUse`: the boolean result, the
`(namespace, GroupVersionKind)` of every `List` call issued, and every
error message passed to `lslog.Error`. -/
structure ListTrace where
  inUse : Bool
  queried : List (String × GroupVersionKind)
  logged : List String
deriving DecidableEq, Repr

/-- The `for _, ns := range wh.managedNamespace.AsSlice()` loop of
`isInUse`: query each namespace in turn; on error, log it and return true
(fail closed); on at least one item, return true; otherwise continue, and
return false once all namespaces are exhausted. -/
def isInUseLoop (client : Store) (gvk : GroupVersionKind) :
    List String → ListTrace
  | [] => ⟨false, [], []⟩
  | ns :: rest =>
    match client ns gvk with
    | Except.error e => ⟨true, [(ns, gvk)], [e]⟩
    | Except.ok items =>
      if items.length > 0 then
        ⟨true, [(ns, gvk)], []⟩
      else
        let r := isInUseLoop client gvk rest
        ⟨r.inUse, (ns, gvk) :: r.queried, r.logged⟩

/-- `isInUse`: builds the query GroupVersionKind from the decoded CRD's
own `GroupVersionKind()` (group, kind, version fields copied one by one,
as in the Go code) and runs the namespace loop. -/
def crdDeletionWebhook.isInUse (wh : crdDeletionWebhook)
    (crd : CustomResourceDefinition) : ListTrace :=
  let gvk : GroupVersionKind :=
    { group := crd.gvk.group
      kind := crd.gvk.kind
      version := crd.gvk.version }
  isInUseLoop wh.client gvk wh.managedNamespace

/-- The hard-coded list of protected Elastic API groups, exactly as
written in `isElasticCRD`. -/
def elasticGroups : List String :=
  [ "agent.k8s.elastic.co"
  , "apm.k8s.elastic.co"
  , "autoscaling.k8s.elastic.co"
  , "beat.k8s.elastic.co"
  , "elasticsearch.k8s.elastic.co"
  , "enterprise-search.k8s.elastic.co"
  , "kibana.k8s.elastic.co"
  , "logstash.k8s.elastic.co"
  , "maps.k8s.elastic.co"
  , "stackconfigpolicy.k8s.elastic.co" ]

/-- `isElasticCRD`: `slices.Contains(elasticGroups, gvk.Group)`. -/
def isElasticCRD (gvk : GroupVersionKind) : Bool :=
  elasticGroups.contains gvk.group

/-- The admission response together with the observable side effects of
computing it. -/
structure Response where
  verdict : Verdict
  queried : List (String × GroupVersionKind)
  logged : List String
deriving DecidableEq, Repr

/-- `Handle`: decode the raw object; on failure return
`admission.Errored(http.StatusBadRequest, err)`; if the decoded object's
GroupVersionKind is an Elastic CRD and it is in use, return
`admission.Denied`; otherwise return `admission.Allowed("")`.  The `&&`
short-circuits: `isInUse` runs only when `isElasticCRD` is true. -/
def crdDeletionWebhook.Handle (wh : crdDeletionWebhook) (req : Request) :
    Response :=
  match wh.decoder req.object with
  | Except.error e => ⟨Verdict.errored 400 e, [], []⟩
  | Except.ok crd =>
    if isElasticCRD crd.gvk then
      let r := wh.isInUse crd
      if r.inUse then
        ⟨Verdict.denied "deletion of Elastic CRDs is not allowed", r.queried, r.logged⟩
      else
        ⟨Verdict.allowed "", r.queried, r.logged⟩
    else
      ⟨Verdict.allowed "", [], []⟩

/-- A spec-side characterisation of the decision after a successful
decode, written as a function of the object's own GroupVersionKind alone:
the same triple is handed to the classifier and set on every `List`
query, and nothing from the CRD's spec participates.  Used to state the
refinement claim that `Handle` factors through it. -/
def handleDecodedGVK (wh : crdDeletionWebhook) (g : GroupVersionKind) :
    Response :=
  if isElasticCRD g then
    let r := isInUseLoop wh.client g wh.managedNamespace
    if r.inUse then
      ⟨Verdict.denied "deletion of Elastic CRDs is not allowed", r.queried, r.logged⟩
    else
      ⟨Verdict.allowed "", r.queried, r.logged⟩
  else
    ⟨Verdict.allowed "", [], []⟩

/-- The GroupVersionKind of the scenario CRD: group
`elasticsearch.k8s.elastic.co`. -/
def sampleGVK : GroupVersionKind :=
  ⟨"elasticsearch.k8s.elastic.co", "v1", "CustomResourceDefinition"⟩

/-- A concrete decoded CRD with the scenario group. -/
def sampleCRD : CustomResourceDefinition :=
  ⟨sampleGVK, "elasticsearch.k8s.elastic.co", ["v1"]⟩

/-- A CRD whose group is not protected. -/
def unrelatedCRD : CustomResourceDefinition :=
  ⟨⟨"unrelated.example.com", "v1", "CustomResourceDefinition"⟩,
    "unrelated.example.com", ["v1"]⟩

/-- A concrete decoder: two recognised payloads, everything else fails
to decode. -/
def sampleDecoder : RawObject → Except String CustomResourceDefinition :=
  fun raw =>
    if raw = "crd-bytes" then Except.ok sampleCRD
    else if raw = "unrelated-bytes" then Except.ok unrelatedCRD
    else Except.error "decode failure"

/-- A concrete store: `ns-a` holds no instances, `ns-b` holds one. -/
def sampleStore : Store := fun ns _ =>
  if ns = "ns-a" then Except.ok []
  else if ns = "ns-b" then Except.ok [()]
  else Except.ok []

/-- A store that fails with a transport error on `ns-a`. -/
def errStore : Store := fun ns _ =>
  if ns = "ns-a" then Except.error "transport error"
  else Except.ok [()]

/-- A store with no instances anywhere. -/
def emptyStore : Store := fun _ _ => Except.ok []

/-- The scenario webhook: managed namespaces `ns-a` then `ns-b`,
`sampleStore` as client. -/
def sampleWebhook : crdDeletionWebhook :=
  ⟨sampleStore, sampleDecoder, ["ns-a", "ns-b"]⟩

/-- Same webhook but the client errors on `ns-a`. -/
def errWebhook : crdDeletionWebhook :=
  ⟨errStore, sampleDecoder, ["ns-a", "ns-b"]⟩

/-- Same webhook but no instances exist in any namespace. -/
def allowWebhook : crdDeletionWebhook :=
  ⟨emptyStore, sampleDecoder, ["ns-a", "ns-b"]⟩

/-- Same webhook but the managed namespace set is empty. -/
def noNsWebhook : crdDeletionWebhook :=
  ⟨sampleStore, sampleDecoder, []⟩

/-- A concrete deletion request carrying the scenario CRD payload. -/
def sampleRequest : Request :=
  ⟨"uid-1", "elasticsearches.elasticsearch.k8s.elastic.co", "",
    "DELETE", "system:admin", "crd-bytes", "", false, ""⟩

/-- The same payload under a different operation and different metadata
fields. -/
def sampleRequestCreate : Request :=
  ⟨"uid-2", "other-name", "other-ns",
    "CREATE", "someone:else", "crd-bytes", "old-bytes", true, "opts"⟩

/-- A request with an unprotected object payload. -/
def unrelatedRequest : Request :=
  ⟨"uid-3", "widgets.unrelated.example.com", "",
    "DELETE", "system:admin", "unrelated-bytes", "", false, ""⟩

/-- A request whose payload does not decode. -/
def garbageRequest : Request :=
  ⟨"uid-4", "whatever", "",
    "DELETE", "system:admin", "garbage", "", false, ""⟩

example : (sampleWebhook.Handle sampleRequest).verdict
    = Verdict.denied "deletion of Elastic CRDs is not allowed" := by decide

example : (sampleWebhook.Handle sampleRequest).queried.map Prod.fst
    = ["ns-a", "ns-b"] := by decide

example : (errWebhook.Handle sampleRequest).queried.map Prod.fst
    = ["ns-a"] := by decide

example : (allowWebhook.Handle sampleRequest).verdict
    = Verdict.allowed "" := by decide

example : sampleWebhook.Handle unrelatedRequest
    = ⟨Verdict.allowed "", [], []⟩ := by decide

example : sampleWebhook.Handle garbageRequest
    = ⟨Verdict.errored 400 "decode failure", [], []⟩ := by decide

/-- Every `List` query issued by the namespace loop carries exactly the
GroupVersionKind the loop was started with. -/
theorem isInUseLoop_queried_gvk (client : Store) (g : GroupVersionKind) :
    ∀ l : List String, ∀ p ∈ (isInUseLoop client g l).queried, p.2 = g := by
  intro l
  induction l with
  | nil => simp [isInUseLoop]
  | cons ns tl ih =>
    intro p hp
    simp only [isInUseLoop] at hp
    cases hcl : client ns g with
    | error e =>
      rw [hcl] at hp
      simp at hp
      simp [hp]
    | ok items =>
      rw [hcl] at hp
      by_cases hl : items.length > 0
      · simp [hl] at hp
        simp [hp]
      · simp [hl] at hp
        rcases hp with h | h
        · simp [h]
        · exact ih p h

/-- Namespaces that answer with zero items and no error are passed
through by the loop: the result on `pre ++ rest` is the result on `rest`
with the `pre` queries recorded in front. -/
theorem isInUseLoop_append_empty (client : Store) (g : GroupVersionKind)
    (pre : List String)
    (hpre : ∀ m ∈ pre, ∃ items, client m g = Except.ok items ∧ items.length = 0) :
    ∀ rest : List String,
      isInUseLoop client g (pre ++ rest) =
        ⟨(isInUseLoop client g rest).inUse,
          pre.map (fun m => (m, g)) ++ (isInUseLoop client g rest).queried,
          (isInUseLoop client g rest).logged⟩ := by
  induction pre with
  | nil => intro rest; simp
  | cons ns tl ih =>
    intro rest
    obtain ⟨items, hok, hlen⟩ := hpre ns (by simp)
    have hnil : items = [] := List.length_eq_zero.mp hlen
    subst hnil
    have htl : ∀ m ∈ tl, ∃ items, client m g = Except.ok items ∧ items.length = 0 :=
      fun m hm => hpre m (by simp [hm])
    simp only [List.cons_append, isInUseLoop, hok, List.length_nil, gt_iff_lt,
      lt_self_iff_false, if_false, List.append_eq, ih htl rest, List.map_cons]

/-- After a successful decode the handler's behaviour is exactly
`handleDecodedGVK` applied to the decoded object's own GroupVersionKind. -/
theorem Handle_ok (wh : crdDeletionWebhook) (req : Request)
    (crd : CustomResourceDefinition)
    (hdec : wh.decoder req.object = Except.ok crd) :
    wh.Handle req = handleDecodedGVK wh crd.gvk := by
  unfold crdDeletionWebhook.Handle
  rw [hdec]
  rfl

/-- Every query in a `handleDecodedGVK` trace carries the classified
GroupVersionKind. -/
theorem handleDecodedGVK_queried_gvk (wh : crdDeletionWebhook)
    (g : GroupVersionKind) :
    ∀ p ∈ (handleDecodedGVK wh g).queried, p.2 = g := by
  intro p hp
  simp only [handleDecodedGVK] at hp
  split at hp
  · split at hp
    · exact isInUseLoop_queried_gvk wh.client g wh.managedNamespace p hp
    · exact isInUseLoop_queried_gvk wh.client g wh.managedNamespace p hp
  · simp at hp

/-- C1: for a protected identity, if some managed namespace's List query
succeeds with at least one instance and every earlier-iterated namespace
returned zero instances without error, `Handle` returns Denied and no
namespace after the first positive one is queried. -/
theorem handle_denies_and_stops_at_first_namespace_with_instances
    (wh : crdDeletionWebhook) (req : Request) (crd : CustomResourceDefinition)
    (pre post : List String) (ns : String)
    (hdec : wh.decoder req.object = Except.ok crd)
    (hprot : isElasticCRD crd.gvk = true)
    (hsplit : wh.managedNamespace = pre ++ ns :: post)
    (hpre : ∀ m ∈ pre, ∃ items, wh.client m crd.gvk = Except.ok items ∧ items.length = 0)
    (hfirst : ∃ items, wh.client ns crd.gvk = Except.ok items ∧ 0 < items.length) :
    (wh.Handle req).verdict = Verdict.denied "deletion of Elastic CRDs is not allowed" ∧
      (wh.Handle req).queried.map Prod.fst = pre ++ [ns] := by
  obtain ⟨items, hok, hlen⟩ := hfirst
  rw [Handle_ok wh req crd hdec]
  simp only [handleDecodedGVK, hprot, if_true, hsplit,
    isInUseLoop_append_empty wh.client crd.gvk pre hpre (ns :: post),
    isInUseLoop, hok, gt_iff_lt, hlen, if_true]
  simp [List.map_map, Function.comp]
  exact List.map_id pre

/-- C2: for a protected identity, if some managed namespace's List query
errors before any namespace reported instances, `Handle` returns Denied
(fail-closed), the error is logged rather than surfaced as an Errored
response, and no later namespace is queried. -/
theorem handle_denies_fail_closed_on_query_error
    (wh : crdDeletionWebhook) (req : Request) (crd : CustomResourceDefinition)
    (pre post : List String) (ns : String) (e : String)
    (hdec : wh.decoder req.object = Except.ok crd)
    (hprot : isElasticCRD crd.gvk = true)
    (hsplit : wh.managedNamespace = pre ++ ns :: post)
    (hpre : ∀ m ∈ pre, ∃ items, wh.client m crd.gvk = Except.ok items ∧ items.length = 0)
    (herr : wh.client ns crd.gvk = Except.error e) :
    (wh.Handle req).verdict = Verdict.denied "deletion of Elastic CRDs is not allowed" ∧
      (wh.Handle req).queried.map Prod.fst = pre ++ [ns] ∧
      e ∈ (wh.Handle req).logged := by
  rw [Handle_ok wh req crd hdec]
  simp only [handleDecodedGVK, hprot, if_true, hsplit,
    isInUseLoop_append_empty wh.client crd.gvk pre hpre (ns :: post),
    isInUseLoop, herr, if_true]
  simp [List.map_map, Function.comp]
  exact List.map_id pre

/-- C3: a successfully decoded object whose group is not protected is
Allowed, whatever the store would answer, and no List query is issued. -/
theorem handle_allows_unprotected_group_without_queries
    (wh : crdDeletionWebhook) (req : Request) (crd : CustomResourceDefinition)
    (hdec : wh.decoder req.object = Except.ok crd)
    (hnot : isElasticCRD crd.gvk = false) :
    wh.Handle req = ⟨Verdict.allowed "", [], []⟩ := by
  rw [Handle_ok wh req crd hdec]
  simp [handleDecodedGVK, hnot]

/-- C4: for a protected identity, if every managed namespace's List query
succeeds with zero instances, `Handle` returns Allowed. -/
theorem handle_allows_when_all_namespaces_empty
    (wh : crdDeletionWebhook) (req : Request) (crd : CustomResourceDefinition)
    (hdec : wh.decoder req.object = Except.ok crd)
    (hprot : isElasticCRD crd.gvk = true)
    (hall : ∀ m ∈ wh.managedNamespace,
      ∃ items, wh.client m crd.gvk = Except.ok items ∧ items.length = 0) :
    (wh.Handle req).verdict = Verdict.allowed "" := by
  rw [Handle_ok wh req crd hdec]
  have h := isInUseLoop_append_empty wh.client crd.gvk wh.managedNamespace hall []
  rw [List.append_nil] at h
  simp [handleDecodedGVK, hprot, h, isInUseLoop]

/-- C5: a request whose raw object fails to decode is answered with
Errored carrying status 400 and the decode cause, and no List query is
attempted. -/
theorem handle_errored_on_decode_failure
    (wh : crdDeletionWebhook) (req : Request) (e : String)
    (hdec : wh.decoder req.object = Except.error e) :
    wh.Handle req = ⟨Verdict.errored 400 e, [], []⟩ := by
  unfold crdDeletionWebhook.Handle
  rw [hdec]

/-- C6 (counterexample): in the scenario with managed namespaces
`ns-a`, `ns-b`, identity group `elasticsearch.k8s.elastic.co`, zero
instances in `ns-a` and one in `ns-b`, the verdict is not
`Denied("deletion of protected resource-type is not allowed")` — the
code uses a different reason string. -/
theorem scenario_reason_string_counterexample :
    (sampleWebhook.Handle sampleRequest).verdict ≠
      Verdict.denied "deletion of protected resource-type is not allowed" := by
  decide

/-- C6 (amended): in that same scenario `Handle` returns Denied with the
exact reason string `deletion of Elastic CRDs is not allowed`. -/
theorem scenario_denies_with_exact_code_reason :
    (sampleWebhook.Handle sampleRequest).verdict =
      Verdict.denied "deletion of Elastic CRDs is not allowed" := by
  decide

/-- C7: the classifier returns true exactly when the identity's group is
a member of the hard-coded group list (exact membership, no wildcard or
prefix matching), and an empty group yields false rather than an error. -/
theorem isElasticCRD_exact_group_membership :
    (∀ gvk : GroupVersionKind, isElasticCRD gvk = true ↔ gvk.group ∈ elasticGroups) ∧
      (∀ version kind : String, isElasticCRD ⟨"", version, kind⟩ = false) := by
  constructor
  · intro gvk
    unfold isElasticCRD
    exact ⟨fun h => List.mem_of_elem_eq_true h, fun h => List.elem_eq_true_of_mem h⟩
  · intro version kind
    rfl

/-- C8: after a successful decode, the decision is a function of the
decoded object's own GroupVersionKind alone (nothing from the CRD's spec
participates), and every List query carries exactly the classified
triple. -/
theorem handle_factors_through_object_gvk
    (wh : crdDeletionWebhook) (req : Request) (crd : CustomResourceDefinition)
    (hdec : wh.decoder req.object = Except.ok crd) :
    wh.Handle req = handleDecodedGVK wh crd.gvk ∧
      ∀ p ∈ (wh.Handle req).queried, p.2 = crd.gvk := by
  have hh := Handle_ok wh req crd hdec
  refine ⟨hh, ?_⟩
  rw [hh]
  exact handleDecodedGVK_queried_gvk wh crd.gvk

/-- C9: with an empty managed namespace set, every successfully decoded
request is Allowed and no List query is issued, protected or not. -/
theorem handle_allows_with_empty_managed_namespace_set
    (wh : crdDeletionWebhook) (req : Request) (crd : CustomResourceDefinition)
    (hdec : wh.decoder req.object = Except.ok crd)
    (hempty : wh.managedNamespace = []) :
    wh.Handle req = ⟨Verdict.allowed "", [], []⟩ := by
  rw [Handle_ok wh req crd hdec]
  simp [handleDecodedGVK, hempty, isInUseLoop]

/-- C10: for a fixed webhook state, the response is a function of the
request's raw object bytes alone; no other request field, the operation
included, is inspected. -/
theorem handle_depends_only_on_raw_object
    (wh : crdDeletionWebhook) (req1 req2 : Request)
    (hobj : req1.object = req2.object) :
    wh.Handle req1 = wh.Handle req2 := by
  unfold crdDeletionWebhook.Handle
  rw [hobj]

/-- Witness for C1 at the scenario webhook: `ns-a` empty, `ns-b` holds an
instance. -/
theorem handle_denies_and_stops_at_first_namespace_with_instances_witness :
    (sampleWebhook.Handle sampleRequest).verdict =
        Verdict.denied "deletion of Elastic CRDs is not allowed" ∧
      (sampleWebhook.Handle sampleRequest).queried.map Prod.fst = ["ns-a"] ++ ["ns-b"] :=
  handle_denies_and_stops_at_first_namespace_with_instances sampleWebhook sampleRequest
    sampleCRD ["ns-a"] [] "ns-b" rfl (by decide) rfl
    (by intro m hm; rw [List.mem_singleton] at hm; subst hm; exact ⟨[], rfl, rfl⟩)
    ⟨[()], rfl, by decide⟩

/-- Witness for C2: the client errors on `ns-a`, the first namespace, so
`ns-b` is never queried. -/
theorem handle_denies_fail_closed_on_query_error_witness :
    (errWebhook.Handle sampleRequest).verdict =
        Verdict.denied "deletion of Elastic CRDs is not allowed" ∧
      (errWebhook.Handle sampleRequest).queried.map Prod.fst = [] ++ ["ns-a"] ∧
      "transport error" ∈ (errWebhook.Handle sampleRequest).logged :=
  handle_denies_fail_closed_on_query_error errWebhook sampleRequest sampleCRD
    [] ["ns-b"] "ns-a" "transport error" rfl (by decide) rfl (by simp) rfl

/-- Witness for C3: an object of group `unrelated.example.com` is allowed
with no query. -/
theorem handle_allows_unprotected_group_without_queries_witness :
    sampleWebhook.Handle unrelatedRequest = ⟨Verdict.allowed "", [], []⟩ :=
  handle_allows_unprotected_group_without_queries sampleWebhook unrelatedRequest
    unrelatedCRD rfl (by decide)

/-- Witness for C4: both namespaces empty, the deletion is allowed. -/
theorem handle_allows_when_all_namespaces_empty_witness :
    (allowWebhook.Handle sampleRequest).verdict = Verdict.allowed "" :=
  handle_allows_when_all_namespaces_empty allowWebhook sampleRequest sampleCRD
    rfl (by decide) (by intro m hm; exact ⟨[], rfl, rfl⟩)

/-- Witness for C5: an undecodable payload yields Errored 400. -/
theorem handle_errored_on_decode_failure_witness :
    sampleWebhook.Handle garbageRequest = ⟨Verdict.errored 400 "decode failure", [], []⟩ :=
  handle_errored_on_decode_failure sampleWebhook garbageRequest "decode failure" rfl

/-- Witness for C8 at the scenario webhook. -/
theorem handle_factors_through_object_gvk_witness :
    sampleWebhook.Handle sampleRequest = handleDecodedGVK sampleWebhook sampleCRD.gvk ∧
      ∀ p ∈ (sampleWebhook.Handle sampleRequest).queried, p.2 = sampleCRD.gvk :=
  handle_factors_through_object_gvk sampleWebhook sampleRequest sampleCRD rfl

/-- Witness for C9: no managed namespaces, a protected object is still
allowed without queries. -/
theorem handle_allows_with_empty_managed_namespace_set_witness :
    noNsWebhook.Handle sampleRequest = ⟨Verdict.allowed "", [], []⟩ :=
  handle_allows_with_empty_managed_namespace_set noNsWebhook sampleRequest sampleCRD
    rfl rfl

/-- Witness for C10: the same payload under operations DELETE and CREATE
with different metadata receives the same response. -/
theorem handle_depends_only_on_raw_object_witness :
    sampleWebhook.Handle sampleRequest = sampleWebhook.Handle sampleRequestCreate :=
  handle_depends_only_on_raw_object sampleWebhook sampleRequest sampleRequestCreate rfl

end CrdDeletion
